import Mathlib

/-!
Verification of `src/handler/win/crash_report_exception_handler.cc`
(Crashpad fork): a shallow embedding of
`CrashReportExceptionHandler::ExceptionHandlerServerException` and the
surrounding capture pipeline, together with theorems settling the spec's
claims about it.

The handler's interaction with its collaborators (snapshot provider,
crash database, settings, minidump writer, upload thread, metrics) is
modelled by an environment `Env` describing each collaborator's outcome,
and the handler itself by a function from `Env` to the returned
termination code together with the ordered trace of observable events
(collaborator calls and metric emissions).  A `none` result models the
handler itself faulting on a null-pointer dereference.
-/

namespace Crashpad

/-- `TriState` from util/misc/tri_state.h: the three-valued
`crashpad_handler_behavior` client option. -/
inductive TriState
  | kUnset
  | kEnabled
  | kDisabled
deriving DecidableEq

/-- `CrashReportDatabase::OperationStatus`: the source only distinguishes
`kNoError` from everything else (`database_status != CrashReportDatabase::kNoError`). -/
inductive OperationStatus
  | kNoError
  | kReportNotFound
  | kFileSystemError
  | kDatabaseError
  | kBusyError
deriving DecidableEq

/-- The `Metrics::CaptureResult` values recorded by this translation unit. -/
inductive CaptureResult
  | kSuccess
  | kSnapshotFailed
  | kPrepareNewCrashReportFailed
  | kMinidumpWriteFailed
  | kFinishedWritingCrashReportFailed
deriving DecidableEq

/-- Client / report identifiers (`UUID`), abstracted to a natural number;
the default-constructed all-zero UUID is `0`. -/
abbrev UUID := Nat

/-- One caller-supplied attachment path, as seen by the attachment-copy
loop: its base name, whether `FileReader::Open` succeeds on it, and
whether `NewReport::AddAttachment` returns a non-null writer for it. -/
structure Attachment where
  name : String
  openOk : Bool
  addOk : Bool
deriving DecidableEq

/-- Observable events of one `ExceptionHandlerServerException` call, in
program order: metric emissions, suspension-guard actions, and calls into
the snapshot, database, minidump, and upload collaborators. -/
inductive Event
  | exceptionEncountered
  | suspendProcess
  | suspendFailureReported
  | resumeProcess
  | snapshotInitialize
  | captureResult (r : CaptureResult)
  | exceptionCodeMetric (code : Nat)
  | getCrashpadOptions
  | showReportDialog
  | getSettings
  | getClientID
  | setClientID (id : UUID)
  | setAnnotationsSimpleMap
  | prepareNewCrashReport
  | setReportID (id : UUID)
  | initializeFromSnapshot
  | addUserExtensionStreams
  | writeEverything
  | openAttachment (name : String)
  | addAttachment (name : String)
  | copyFileContent (name : String)
  | finishedWritingCrashReport
  | reportPending (u : UUID)
deriving DecidableEq

/-- The environment of one call: the handler's constructor-supplied
pointers (`process_annotations_`, `attachments_`, `upload_thread_`,
modelled as `Option` / `Bool`) and the outcome each collaborator call
would produce. -/
structure Env where
  /-- Whether suspending the target process in the guard's constructor succeeds. -/
  suspendOk : Bool
  /-- Whether `ProcessSnapshotWin::Initialize` succeeds. -/
  snapshotOk : Bool
  /-- `process_snapshot.Exception()->Exception()`, the raw OS exception code. -/
  exceptionCode : Nat
  /-- `client_options.crashpad_handler_behavior` extracted by `GetCrashpadOptions`. -/
  handlerBehavior : TriState
  /-- Whether `database_->GetSettings()` returns non-null. -/
  settingsAvailable : Bool
  /-- Whether `settings->GetClientID` succeeds (on failure the out-parameter
  keeps its default all-zero value, per the comment in the source). -/
  getClientIDOk : Bool
  /-- The client id `GetClientID` would yield on success. -/
  storedClientID : UUID
  /-- Status returned by `database_->PrepareNewCrashReport`. -/
  prepareStatus : OperationStatus
  /-- `new_report->ReportID()`. -/
  newReportID : UUID
  /-- Whether `minidump.WriteEverything(new_report->Writer())` succeeds. -/
  writeOk : Bool
  /-- The `attachments_` constructor pointer: `none` models a null pointer. -/
  attachments_ : Option (List Attachment)
  /-- The `process_annotations_` constructor pointer: `none` models a null pointer. -/
  process_annotations_ : Option (List (String × String))
  /-- Status returned by `database_->FinishedWritingCrashReport`. -/
  finishStatus : OperationStatus
  /-- The UUID produced by a successful `FinishedWritingCrashReport`. -/
  finishUUID : UUID
  /-- Whether `upload_thread_` is non-null. -/
  uploadThreadPresent : Bool
deriving DecidableEq

/-- Modelled from the spec: the constructor of the Process Suspension
Guard (`ScopedProcessSuspend`, util/win/scoped_process_suspend.cc, not
under src/).  Per spec section 4.1, on construction it suspends the target
process, and if suspension fails "the failure must surface as a distinct,
reported outcome before any snapshot is attempted, not as a silent
no-op". -/
def guardConstructEvents (suspendOk : Bool) : List Event :=
  if suspendOk then [Event.suspendProcess] else [Event.suspendFailureReported]

/-- Modelled from the spec: the destructor of the Process Suspension Guard
(not under src/).  Per spec section 4.1 it "guarantees the process is
resumed when the guard's scope ends, on every exit path"; a process whose
suspension failed is not resumed. -/
def guardDestructEvents (suspendOk : Bool) : List Event :=
  if suspendOk then [Event.resumeProcess] else []

/-- Modelled from the spec: the reserved sentinel termination code
`kTerminationCodeSnapshotFailed` (util/win/termination_codes.h, not under
src/), "a fixed constant distinct from any real OS exception code"
meaning the snapshot could not be acquired. -/
def kTerminationCodeSnapshotFailed : Nat := 0xcca11002

/-- One iteration of the attachment-copy loop (source lines 448-466):
`FileReader::Open` is attempted; on failure the attachment is skipped;
otherwise `AddAttachment` is called, and if it yields a writer the
content is copied with `CopyFileContent`. -/
def attachmentEvents (a : Attachment) : List Event :=
  if a.openOk then
    if a.addOk then
      [Event.openAttachment a.name, Event.addAttachment a.name,
        Event.copyFileContent a.name]
    else
      [Event.openAttachment a.name, Event.addAttachment a.name]
  else
    [Event.openAttachment a.name]

/-- The whole attachment-copy loop over `*attachments_`, in order. -/
def attachmentLoop : List Attachment → List Event
  | [] => []
  | a :: rest => attachmentEvents a ++ attachmentLoop rest

/-- The events of client-identity resolution (source lines 412-419):
`GetSettings` is always called; `GetClientID` only when it returned a
non-null settings object. -/
def settingsEvents (env : Env) : List Event :=
  if env.settingsAvailable then [Event.getSettings, Event.getClientID]
  else [Event.getSettings]

/-- The client id passed to `SetClientID`: the stored id when both
`GetSettings` and `GetClientID` succeed, otherwise the default-constructed
all-zero UUID (source lines 412-421). -/
def clientId (env : Env) : UUID :=
  if env.settingsAvailable && env.getClientIDOk then env.storedClientID
  else 0

/-- Shallow embedding of
`CrashReportExceptionHandler::ExceptionHandlerServerException`
(source lines 377-485).  Returns the termination code together with the
ordered event trace, or `none` when the handler faults dereferencing a
null `process_annotations_` or `attachments_` pointer. -/
def ExceptionHandlerServerException (env : Env) : Option (Nat × List Event) :=
  let construct := guardConstructEvents env.suspendOk
  let unwind := guardDestructEvents env.suspendOk
  if env.snapshotOk then
    -- termination code computed once, right after the snapshot succeeds
    let terminationCode := env.exceptionCode
    if env.handlerBehavior = TriState.kDisabled then
      some (terminationCode,
        Event.exceptionEncountered :: construct ++
          [Event.snapshotInitialize,
            Event.exceptionCodeMetric terminationCode,
            Event.getCrashpadOptions,
            Event.captureResult CaptureResult.kSuccess] ++ unwind)
    else
      match env.process_annotations_ with
      | none => none
      | some _ =>
        let head := Event.exceptionEncountered :: construct ++
          [Event.snapshotInitialize,
            Event.exceptionCodeMetric terminationCode,
            Event.getCrashpadOptions,
            Event.showReportDialog] ++ settingsEvents env ++
          [Event.setClientID (clientId env),
            Event.setAnnotationsSimpleMap,
            Event.prepareNewCrashReport]
        if env.prepareStatus = OperationStatus.kNoError then
          let head := head ++
            [Event.setReportID env.newReportID,
              Event.initializeFromSnapshot,
              Event.addUserExtensionStreams,
              Event.writeEverything]
          if env.writeOk then
            match env.attachments_ with
            | none => none
            | some atts =>
              let head := head ++ attachmentLoop atts ++
                [Event.finishedWritingCrashReport]
              if env.finishStatus = OperationStatus.kNoError then
                some (terminationCode, head ++
                  (if env.uploadThreadPresent then
                    [Event.reportPending env.finishUUID]
                  else []) ++
                  [Event.captureResult CaptureResult.kSuccess] ++ unwind)
              else
                some (terminationCode, head ++
                  [Event.captureResult
                    CaptureResult.kFinishedWritingCrashReportFailed] ++ unwind)
          else
            some (terminationCode, head ++
              [Event.captureResult CaptureResult.kMinidumpWriteFailed] ++ unwind)
        else
          some (terminationCode, head ++
            [Event.captureResult
              CaptureResult.kPrepareNewCrashReportFailed] ++ unwind)
  else
    some (kTerminationCodeSnapshotFailed,
      Event.exceptionEncountered :: construct ++
        [Event.snapshotInitialize,
          Event.captureResult CaptureResult.kSnapshotFailed] ++ unwind)

/-- Events that are calls into the crash database or its settings object:
`GetSettings`, `GetClientID`, `PrepareNewCrashReport`, `AddAttachment`,
`FinishedWritingCrashReport`. -/
def isDatabaseInteraction : Event → Bool
  | Event.getSettings => true
  | Event.getClientID => true
  | Event.prepareNewCrashReport => true
  | Event.addAttachment _ => true
  | Event.finishedWritingCrashReport => true
  | _ => false

/-- Events that are calls into the upload thread. -/
def isUploadInteraction : Event → Bool
  | Event.reportPending _ => true
  | _ => false

/-- Capture-result metric emissions. -/
def isCaptureResultEvent : Event → Bool
  | Event.captureResult _ => true
  | _ => false

/-- `CopyFileContent` events of the attachment loop. -/
def isCopyFileContentEvent : Event → Bool
  | Event.copyFileContent _ => true
  | _ => false

/-- `FileReader::Open` attempts of the attachment loop. -/
def isOpenAttachmentEvent : Event → Bool
  | Event.openAttachment _ => true
  | _ => false

/-- Number of occurrences of an event in a trace. -/
def countEvent (e : Event) : List Event → Nat
  | [] => 0
  | x :: xs => (if x = e then 1 else 0) + countEvent e xs

/-- Trace of the snapshot-initialization-failure path. -/
def failTraceSnapshot (env : Env) : List Event :=
  Event.exceptionEncountered :: guardConstructEvents env.suspendOk ++
    [Event.snapshotInitialize,
      Event.captureResult CaptureResult.kSnapshotFailed] ++
    guardDestructEvents env.suspendOk

/-- Trace of the disabled-reporting path. -/
def disabledTrace (env : Env) : List Event :=
  Event.exceptionEncountered :: guardConstructEvents env.suspendOk ++
    [Event.snapshotInitialize,
      Event.exceptionCodeMetric env.exceptionCode,
      Event.getCrashpadOptions,
      Event.captureResult CaptureResult.kSuccess] ++
    guardDestructEvents env.suspendOk

/-- Common prefix of every report-generation path, up to and including
the `PrepareNewCrashReport` call. -/
def reportGenHead (env : Env) : List Event :=
  Event.exceptionEncountered :: guardConstructEvents env.suspendOk ++
    [Event.snapshotInitialize,
      Event.exceptionCodeMetric env.exceptionCode,
      Event.getCrashpadOptions,
      Event.showReportDialog] ++ settingsEvents env ++
    [Event.setClientID (clientId env),
      Event.setAnnotationsSimpleMap,
      Event.prepareNewCrashReport]

/-- Common prefix of every path that passed `PrepareNewCrashReport`, up to
and including the `WriteEverything` call. -/
def writeHead (env : Env) : List Event :=
  reportGenHead env ++
    [Event.setReportID env.newReportID,
      Event.initializeFromSnapshot,
      Event.addUserExtensionStreams,
      Event.writeEverything]

/-- Common prefix of every path that passed `WriteEverything`, through the
attachment loop, up to and including the `FinishedWritingCrashReport`
call. -/
def finishHead (env : Env) (as : List Attachment) : List Event :=
  writeHead env ++ attachmentLoop as ++ [Event.finishedWritingCrashReport]

/-- Trace of the `PrepareNewCrashReport`-failure path. -/
def prepareFailTrace (env : Env) : List Event :=
  reportGenHead env ++
    [Event.captureResult CaptureResult.kPrepareNewCrashReportFailed] ++
    guardDestructEvents env.suspendOk

/-- Trace of the `WriteEverything`-failure path. -/
def writeFailTrace (env : Env) : List Event :=
  writeHead env ++
    [Event.captureResult CaptureResult.kMinidumpWriteFailed] ++
    guardDestructEvents env.suspendOk

/-- Trace of the `FinishedWritingCrashReport`-failure path. -/
def finishFailTrace (env : Env) (as : List Attachment) : List Event :=
  finishHead env as ++
    [Event.captureResult CaptureResult.kFinishedWritingCrashReportFailed] ++
    guardDestructEvents env.suspendOk

/-- Trace of the fully successful path. -/
def successTrace (env : Env) (as : List Attachment) : List Event :=
  finishHead env as ++
    (if env.uploadThreadPresent then [Event.reportPending env.finishUUID]
      else []) ++
    [Event.captureResult CaptureResult.kSuccess] ++
    guardDestructEvents env.suspendOk

/-- The events preceding the report dialog on every report-generation
path: the exception metric, guard construction, the snapshot attempt, the
exception-code metric, and the policy check (`GetCrashpadOptions`). -/
def dialogPrefix (env : Env) : List Event :=
  Event.exceptionEncountered :: guardConstructEvents env.suspendOk ++
    [Event.snapshotInitialize, Event.exceptionCodeMetric env.exceptionCode,
      Event.getCrashpadOptions]

/-- The events following the report dialog up to and including the
`PrepareNewCrashReport` call, then an arbitrary tail. -/
def dialogTail (env : Env) (l : List Event) : List Event :=
  settingsEvents env ++ [Event.setClientID (clientId env),
    Event.setAnnotationsSimpleMap, Event.prepareNewCrashReport] ++ l

/-- A base environment for concrete witnesses: every collaborator
succeeds, one attachment, reporting enabled by default (`kUnset`). -/
def envBase : Env :=
  { suspendOk := true, snapshotOk := true, exceptionCode := 5,
    handlerBehavior := TriState.kUnset, settingsAvailable := true,
    getClientIDOk := true, storedClientID := 1,
    prepareStatus := OperationStatus.kNoError, newReportID := 2, writeOk := true,
    attachments_ := some [⟨"log.txt", true, true⟩],
    process_annotations_ := some [("prod", "app")],
    finishStatus := OperationStatus.kNoError, finishUUID := 3,
    uploadThreadPresent := true }

/-- Environment used by the C1 witness: snapshot succeeds with exception
code 5 and reporting is disabled. -/
def envW1 : Env :=
  { envBase with handlerBehavior := TriState.kDisabled }

/-- Trace produced on `envW1`. -/
def trW1 : List Event :=
  [Event.exceptionEncountered, Event.suspendProcess, Event.snapshotInitialize,
    Event.exceptionCodeMetric 5, Event.getCrashpadOptions,
    Event.captureResult CaptureResult.kSuccess, Event.resumeProcess]

/-- Environment used by the C2 witness: snapshot initialization fails. -/
def envW2 : Env :=
  { envBase with snapshotOk := false }

/-- Environment used by the C3 witness: reporting disabled, everything
else succeeds. -/
def envW3 : Env :=
  { envBase with handlerBehavior := TriState.kDisabled, exceptionCode := 7 }

/-- Trace produced on `envW3`. -/
def trW3 : List Event :=
  [Event.exceptionEncountered, Event.suspendProcess, Event.snapshotInitialize,
    Event.exceptionCodeMetric 7, Event.getCrashpadOptions,
    Event.captureResult CaptureResult.kSuccess, Event.resumeProcess]

/-- Environment used by the C4 witness. -/
def envW4 : Env :=
  { envBase with handlerBehavior := TriState.kDisabled, exceptionCode := 11 }

/-- Environment used by the C5 witness: `PrepareNewCrashReport` fails. -/
def envW5 : Env :=
  { envBase with prepareStatus := OperationStatus.kDatabaseError }

/-- Trace produced on `envW5`. -/
def trW5 : List Event :=
  [Event.exceptionEncountered, Event.suspendProcess, Event.snapshotInitialize,
    Event.exceptionCodeMetric 5, Event.getCrashpadOptions,
    Event.showReportDialog, Event.getSettings, Event.getClientID,
    Event.setClientID 1, Event.setAnnotationsSimpleMap,
    Event.prepareNewCrashReport,
    Event.captureResult CaptureResult.kPrepareNewCrashReportFailed,
    Event.resumeProcess]

/-- Environment used by the C6 witness: the first attachment cannot be
opened, the second gets no output slot, the third copies. -/
def envW6 : Env :=
  { envBase with
    attachments_ := some [⟨"missing.txt", false, true⟩,
      ⟨"noslot.txt", true, false⟩, ⟨"good.txt", true, true⟩] }

/-- Trace produced on `envW6`. -/
def trW6 : List Event :=
  [Event.exceptionEncountered, Event.suspendProcess, Event.snapshotInitialize,
    Event.exceptionCodeMetric 5, Event.getCrashpadOptions,
    Event.showReportDialog, Event.getSettings, Event.getClientID,
    Event.setClientID 1, Event.setAnnotationsSimpleMap,
    Event.prepareNewCrashReport, Event.setReportID 2,
    Event.initializeFromSnapshot, Event.addUserExtensionStreams,
    Event.writeEverything,
    Event.openAttachment "missing.txt",
    Event.openAttachment "noslot.txt", Event.addAttachment "noslot.txt",
    Event.openAttachment "good.txt", Event.addAttachment "good.txt",
    Event.copyFileContent "good.txt",
    Event.finishedWritingCrashReport, Event.reportPending 3,
    Event.captureResult CaptureResult.kSuccess, Event.resumeProcess]

/-- Environment used by the C7 witness: suspending the target fails. -/
def envW7 : Env :=
  { envBase with suspendOk := false, handlerBehavior := TriState.kDisabled }

/-- Trace produced on `envW7`. -/
def trW7 : List Event :=
  [Event.exceptionEncountered, Event.suspendFailureReported,
    Event.snapshotInitialize, Event.exceptionCodeMetric 5,
    Event.getCrashpadOptions, Event.captureResult CaptureResult.kSuccess]

/-- Environment used by the C8 witness: `GetSettings` returns null. -/
def envW8 : Env :=
  { envBase with
    settingsAvailable := false,
    prepareStatus := OperationStatus.kDatabaseError }

/-- Trace produced on `envW8`. -/
def trW8 : List Event :=
  [Event.exceptionEncountered, Event.suspendProcess, Event.snapshotInitialize,
    Event.exceptionCodeMetric 5, Event.getCrashpadOptions,
    Event.showReportDialog, Event.getSettings,
    Event.setClientID 0, Event.setAnnotationsSimpleMap,
    Event.prepareNewCrashReport,
    Event.captureResult CaptureResult.kPrepareNewCrashReportFailed,
    Event.resumeProcess]

/-- Environment of the C9 counterexample: report generation is reached
with a null `attachments_` pointer, but `PrepareNewCrashReport` fails, so
the null pointer is never dereferenced and the handler does not fault. -/
def envC9 : Env :=
  { envBase with
    attachments_ := none,
    prepareStatus := OperationStatus.kDatabaseError }

/-- Trace produced on `envC9`. -/
def trC9 : List Event :=
  [Event.exceptionEncountered, Event.suspendProcess, Event.snapshotInitialize,
    Event.exceptionCodeMetric 5, Event.getCrashpadOptions,
    Event.showReportDialog, Event.getSettings, Event.getClientID,
    Event.setClientID 1, Event.setAnnotationsSimpleMap,
    Event.prepareNewCrashReport,
    Event.captureResult CaptureResult.kPrepareNewCrashReportFailed,
    Event.resumeProcess]

/-- Environment with a null `process_annotations_` pointer reaching
report generation (C9 witness, faulting case a). -/
def envW9a : Env :=
  { envBase with process_annotations_ := none }

/-- Environment with a null `attachments_` pointer reaching the
attachment loop (C9 witness, faulting case b). -/
def envW9b : Env :=
  { envBase with attachments_ := none }

/-- Environment used by the C10 witness. -/
def envW10 : Env :=
  { envBase with prepareStatus := OperationStatus.kDatabaseError }

/-- Trace produced on `envW10`. -/
def trW10 : List Event :=
  [Event.exceptionEncountered, Event.suspendProcess, Event.snapshotInitialize,
    Event.exceptionCodeMetric 5, Event.getCrashpadOptions,
    Event.showReportDialog, Event.getSettings, Event.getClientID,
    Event.setClientID 1, Event.setAnnotationsSimpleMap,
    Event.prepareNewCrashReport,
    Event.captureResult CaptureResult.kPrepareNewCrashReportFailed,
    Event.resumeProcess]

theorem countEvent_append (e : Event) (l₁ l₂ : List Event) :
    countEvent e (l₁ ++ l₂) = countEvent e l₁ + countEvent e l₂ := by
  induction l₁ with
  | nil => simp [countEvent]
  | cons x xs ih => simp [countEvent, ih]; omega

theorem countEvent_cons (e x : Event) (xs : List Event) :
    countEvent e (x :: xs) = (if x = e then 1 else 0) + countEvent e xs := rfl

theorem countEvent_attachmentLoop_ecm (n : Nat) (as : List Attachment) :
    countEvent (Event.exceptionCodeMetric n) (attachmentLoop as) = 0 := by
  induction as with
  | nil => simp [attachmentLoop, countEvent]
  | cons a rest ih =>
    rw [attachmentLoop, countEvent_append, ih]
    unfold attachmentEvents
    cases a.openOk <;> cases a.addOk <;> simp [countEvent]

/-- C1: for every exception notification on which snapshot initialization
succeeds, the value returned by `ExceptionHandlerServerException` equals
the exception code read from the snapshot's exception descriptor, recorded
as a metric exactly once, on every path: prepare failure, minidump-write
failure, finish failure, the disabled-reporting branch, and full
success. -/
theorem C1_termination_code_stable (env : Env) (c : Nat) (tr : List Event)
    (h : ExceptionHandlerServerException env = some (c, tr))
    (hs : env.snapshotOk = true) :
    c = env.exceptionCode ∧
      countEvent (Event.exceptionCodeMetric env.exceptionCode) tr = 1 := by
  by_cases hd : env.handlerBehavior = TriState.kDisabled
  · simp [ExceptionHandlerServerException, hs, hd] at h
    obtain ⟨rfl, rfl⟩ := h
    refine ⟨rfl, ?_⟩
    cases hb : env.suspendOk <;>
      simp [guardConstructEvents, guardDestructEvents, countEvent]
  · cases hann : env.process_annotations_ with
    | none => simp [ExceptionHandlerServerException, hs, hd, hann] at h
    | some m =>
      by_cases hp : env.prepareStatus = OperationStatus.kNoError
      · cases hw : env.writeOk with
        | false =>
          simp [ExceptionHandlerServerException, hs, hd, hann, hp, hw] at h
          obtain ⟨rfl, rfl⟩ := h
          refine ⟨rfl, ?_⟩
          cases hb : env.suspendOk <;> cases hsa : env.settingsAvailable <;>
            simp [guardConstructEvents, guardDestructEvents, settingsEvents,
              hsa, countEvent, countEvent_append]
        | true =>
          cases hatt : env.attachments_ with
          | none => simp [ExceptionHandlerServerException, hs, hd, hann, hp, hw, hatt] at h
          | some as =>
            by_cases hf : env.finishStatus = OperationStatus.kNoError
            · simp [ExceptionHandlerServerException, hs, hd, hann, hp, hw, hatt, hf] at h
              obtain ⟨rfl, rfl⟩ := h
              refine ⟨rfl, ?_⟩
              cases hb : env.suspendOk <;> cases hsa : env.settingsAvailable <;>
                cases hup : env.uploadThreadPresent <;>
                simp [guardConstructEvents, guardDestructEvents, settingsEvents,
                  hsa, countEvent, countEvent_append,
                  countEvent_attachmentLoop_ecm]
            · simp [ExceptionHandlerServerException, hs, hd, hann, hp, hw, hatt, hf] at h
              obtain ⟨rfl, rfl⟩ := h
              refine ⟨rfl, ?_⟩
              cases hb : env.suspendOk <;> cases hsa : env.settingsAvailable <;>
                simp [guardConstructEvents, guardDestructEvents, settingsEvents,
                  hsa, countEvent, countEvent_append,
                  countEvent_attachmentLoop_ecm]
      · simp [ExceptionHandlerServerException, hs, hd, hann, hp] at h
        obtain ⟨rfl, rfl⟩ := h
        refine ⟨rfl, ?_⟩
        cases hb : env.suspendOk <;> cases hsa : env.settingsAvailable <;>
          simp [guardConstructEvents, guardDestructEvents, settingsEvents,
            hsa, countEvent, countEvent_append]

/-- C1 witness: the theorem applied to the concrete environment `envW1`. -/
theorem C1_witness :
    (5 : Nat) = envW1.exceptionCode ∧
      countEvent (Event.exceptionCodeMetric envW1.exceptionCode) trW1 = 1 :=
  C1_termination_code_stable envW1 5 trW1 (by decide) (by decide)

/-- C2: when snapshot initialization fails, the call returns the reserved
sentinel `kTerminationCodeSnapshotFailed`, records the snapshot-failed
capture result, and performs no crash-database interaction (no
`GetSettings`, `PrepareNewCrashReport`, `AddAttachment`, or
`FinishedWritingCrashReport` call). -/
theorem C2_snapshot_failure (env : Env) (hs : env.snapshotOk = false) :
    ∃ tr, ExceptionHandlerServerException env =
        some (kTerminationCodeSnapshotFailed, tr) ∧
      Event.captureResult CaptureResult.kSnapshotFailed ∈ tr ∧
      tr.all (fun e => !(isDatabaseInteraction e)) = true := by
  refine ⟨Event.exceptionEncountered :: guardConstructEvents env.suspendOk ++
      [Event.snapshotInitialize,
        Event.captureResult CaptureResult.kSnapshotFailed] ++
      guardDestructEvents env.suspendOk, ?_, ?_, ?_⟩
  · simp [ExceptionHandlerServerException, hs]
  · simp
  · cases hb : env.suspendOk <;>
      simp [guardConstructEvents, guardDestructEvents, isDatabaseInteraction]

/-- C2 witness: the theorem applied to the concrete environment `envW2`. -/
theorem C2_witness :
    ∃ tr, ExceptionHandlerServerException envW2 =
        some (kTerminationCodeSnapshotFailed, tr) ∧
      Event.captureResult CaptureResult.kSnapshotFailed ∈ tr ∧
      tr.all (fun e => !(isDatabaseInteraction e)) = true :=
  C2_snapshot_failure envW2 (by decide)

theorem run_inversion (env : Env) (c : Nat) (tr : List Event)
    (h : ExceptionHandlerServerException env = some (c, tr)) :
    (env.snapshotOk = false ∧ c = kTerminationCodeSnapshotFailed ∧
      tr = failTraceSnapshot env) ∨
    (env.snapshotOk = true ∧ c = env.exceptionCode ∧
      ((env.handlerBehavior = TriState.kDisabled ∧ tr = disabledTrace env) ∨
        (env.handlerBehavior ≠ TriState.kDisabled ∧
          (∃ m, env.process_annotations_ = some m) ∧
          ((env.prepareStatus ≠ OperationStatus.kNoError ∧
              tr = prepareFailTrace env) ∨
            (env.prepareStatus = OperationStatus.kNoError ∧
              ((env.writeOk = false ∧ tr = writeFailTrace env) ∨
                (env.writeOk = true ∧ ∃ as, env.attachments_ = some as ∧
                  ((env.finishStatus ≠ OperationStatus.kNoError ∧
                      tr = finishFailTrace env as) ∨
                    (env.finishStatus = OperationStatus.kNoError ∧
                      tr = successTrace env as))))))))) := by
  cases hs : env.snapshotOk with
  | false =>
    left
    simp [ExceptionHandlerServerException, hs] at h
    obtain ⟨rfl, rfl⟩ := h
    refine ⟨rfl, rfl, ?_⟩
    simp [failTraceSnapshot, List.append_assoc]
  | true =>
    right
    by_cases hd : env.handlerBehavior = TriState.kDisabled
    · simp [ExceptionHandlerServerException, hs, hd] at h
      obtain ⟨rfl, rfl⟩ := h
      refine ⟨rfl, rfl, Or.inl ⟨hd, ?_⟩⟩
      simp [disabledTrace, List.append_assoc]
    · cases hann : env.process_annotations_ with
      | none => simp [ExceptionHandlerServerException, hs, hd, hann] at h
      | some m =>
        by_cases hp : env.prepareStatus = OperationStatus.kNoError
        · cases hw : env.writeOk with
          | false =>
            simp [ExceptionHandlerServerException, hs, hd, hann, hp, hw] at h
            obtain ⟨rfl, rfl⟩ := h
            refine ⟨rfl, rfl, Or.inr ⟨hd, ⟨m, rfl⟩,
              Or.inr ⟨hp, Or.inl ⟨rfl, ?_⟩⟩⟩⟩
            simp [writeFailTrace, writeHead, reportGenHead, List.append_assoc]
          | true =>
            cases hatt : env.attachments_ with
            | none =>
              simp [ExceptionHandlerServerException, hs, hd, hann, hp, hw,
                hatt] at h
            | some as =>
              by_cases hf : env.finishStatus = OperationStatus.kNoError
              · simp [ExceptionHandlerServerException, hs, hd, hann, hp, hw,
                  hatt, hf] at h
                obtain ⟨rfl, rfl⟩ := h
                refine ⟨rfl, rfl, Or.inr ⟨hd, ⟨m, rfl⟩, Or.inr ⟨hp, Or.inr
                  ⟨rfl, as, rfl, Or.inr ⟨hf, ?_⟩⟩⟩⟩⟩
                simp [successTrace, finishHead, writeHead, reportGenHead,
                  List.append_assoc]
              · simp [ExceptionHandlerServerException, hs, hd, hann, hp, hw,
                  hatt, hf] at h
                obtain ⟨rfl, rfl⟩ := h
                refine ⟨rfl, rfl, Or.inr ⟨hd, ⟨m, rfl⟩, Or.inr ⟨hp, Or.inr
                  ⟨rfl, as, rfl, Or.inl ⟨hf, ?_⟩⟩⟩⟩⟩
                simp [finishFailTrace, finishHead, writeHead, reportGenHead,
                  List.append_assoc]
        · simp [ExceptionHandlerServerException, hs, hd, hann, hp] at h
          obtain ⟨rfl, rfl⟩ := h
          refine ⟨rfl, rfl, Or.inr ⟨hd, ⟨m, rfl⟩, Or.inl ⟨hp, ?_⟩⟩⟩
          simp [prepareFailTrace, reportGenHead, List.append_assoc]

theorem countEvent_attachmentLoop_resume (as : List Attachment) :
    countEvent Event.resumeProcess (attachmentLoop as) = 0 := by
  induction as with
  | nil => simp [attachmentLoop, countEvent]
  | cons a rest ih =>
    rw [attachmentLoop, countEvent_append, ih]
    unfold attachmentEvents
    cases a.openOk <;> cases a.addOk <;> simp [countEvent]

/-- C3: the target process is suspended on entry and resumed exactly once,
on every exit path of the call: the snapshot-failure return, each of the
prepare/write/finish failure returns, the disabled-reporting return, and
the success return. -/
theorem C3_resume_exactly_once (env : Env) (c : Nat) (tr : List Event)
    (h : ExceptionHandlerServerException env = some (c, tr))
    (hsus : env.suspendOk = true) :
    Event.suspendProcess ∈ tr ∧ countEvent Event.resumeProcess tr = 1 := by
  have hC : countEvent Event.resumeProcess
      (guardConstructEvents env.suspendOk) = 0 := by
    simp [hsus, guardConstructEvents, countEvent]
  have hD : countEvent Event.resumeProcess
      (guardDestructEvents env.suspendOk) = 1 := by
    simp [hsus, guardDestructEvents, countEvent]
  have hG : countEvent Event.resumeProcess (reportGenHead env) = 0 := by
    cases hsa : env.settingsAvailable <;>
      simp [reportGenHead, settingsEvents, hsa, hsus, guardConstructEvents,
        countEvent, countEvent_append]
  have hW : countEvent Event.resumeProcess (writeHead env) = 0 := by
    rw [writeHead, countEvent_append, hG]
    simp [countEvent]
  have hU : countEvent Event.resumeProcess
      (if env.uploadThreadPresent then [Event.reportPending env.finishUUID]
        else []) = 0 := by
    cases hup : env.uploadThreadPresent <;> simp [countEvent]
  have hGmem : Event.suspendProcess ∈ reportGenHead env := by
    simp [reportGenHead, guardConstructEvents, hsus]
  rcases run_inversion env c tr h with ⟨_, _, rfl⟩ | ⟨_, _, hrest⟩
  · constructor
    · simp [failTraceSnapshot, guardConstructEvents, hsus]
    · rw [failTraceSnapshot, countEvent_append, countEvent_append,
        countEvent_cons, hC, hD]
      simp [countEvent]
  · rcases hrest with ⟨_, rfl⟩ | ⟨_, _, hrest⟩
    · constructor
      · simp [disabledTrace, guardConstructEvents, hsus]
      · rw [disabledTrace, countEvent_append, countEvent_append,
          countEvent_cons, hC, hD]
        simp [countEvent]
    · rcases hrest with ⟨_, rfl⟩ | ⟨_, hrest2⟩
      · constructor
        · simp [prepareFailTrace, hGmem]
        · rw [prepareFailTrace, countEvent_append, countEvent_append, hG, hD]
          simp [countEvent]
      · rcases hrest2 with ⟨_, rfl⟩ | ⟨_, as, hatt, hfin⟩
        · constructor
          · simp [writeFailTrace, writeHead, hGmem]
          · rw [writeFailTrace, countEvent_append, countEvent_append, hW, hD]
            simp [countEvent]
        · rcases hfin with ⟨_, rfl⟩ | ⟨_, rfl⟩
          · constructor
            · simp [finishFailTrace, finishHead, writeHead, hGmem]
            · rw [finishFailTrace, finishHead]
              simp only [countEvent_append]
              rw [hW, hD, countEvent_attachmentLoop_resume]
              simp [countEvent]
          · constructor
            · simp [successTrace, finishHead, writeHead, hGmem]
            · rw [successTrace, finishHead]
              simp only [countEvent_append]
              rw [hW, hD, hU, countEvent_attachmentLoop_resume]
              simp [countEvent]

/-- C3 witness: the theorem applied to the concrete environment `envW3`. -/
theorem C3_witness :
    Event.suspendProcess ∈ trW3 ∧ countEvent Event.resumeProcess trW3 = 1 :=
  C3_resume_exactly_once envW3 7 trW3 (by decide) (by decide)

/-- C4: when the snapshot succeeds and the handler behavior tri-state is
exactly disabled, no database or upload interaction occurs, the only
capture-result metric recorded is success, and the returned value is the
termination code computed from the snapshot. -/
theorem C4_disabled_no_database (env : Env) (hs : env.snapshotOk = true)
    (hd : env.handlerBehavior = TriState.kDisabled) :
    ExceptionHandlerServerException env =
        some (env.exceptionCode, disabledTrace env) ∧
      (disabledTrace env).all
        (fun e => !(isDatabaseInteraction e || isUploadInteraction e)) = true ∧
      (disabledTrace env).filter isCaptureResultEvent =
        [Event.captureResult CaptureResult.kSuccess] := by
  refine ⟨by simp [ExceptionHandlerServerException, hs, hd, disabledTrace], ?_, ?_⟩
  · cases hb : env.suspendOk <;>
      simp [disabledTrace, guardConstructEvents, guardDestructEvents, hb,
        isDatabaseInteraction, isUploadInteraction]
  · cases hb : env.suspendOk <;>
      simp [disabledTrace, guardConstructEvents, guardDestructEvents, hb,
        isCaptureResultEvent]

/-- C4 witness: the theorem applied to the concrete environment `envW4`. -/
theorem C4_witness :
    ExceptionHandlerServerException envW4 =
        some (envW4.exceptionCode, disabledTrace envW4) ∧
      (disabledTrace envW4).all
        (fun e => !(isDatabaseInteraction e || isUploadInteraction e)) = true ∧
      (disabledTrace envW4).filter isCaptureResultEvent =
        [Event.captureResult CaptureResult.kSuccess] :=
  C4_disabled_no_database envW4 (by decide) (by decide)

theorem rp_not_mem_guardConstruct (u : UUID) (b : Bool) :
    Event.reportPending u ∉ guardConstructEvents b := by
  cases b <;> simp [guardConstructEvents]

theorem rp_not_mem_guardDestruct (u : UUID) (b : Bool) :
    Event.reportPending u ∉ guardDestructEvents b := by
  cases b <;> simp [guardDestructEvents]

theorem rp_not_mem_attachmentLoop (u : UUID) (as : List Attachment) :
    Event.reportPending u ∉ attachmentLoop as := by
  induction as with
  | nil => simp [attachmentLoop]
  | cons a rest ih =>
    rw [attachmentLoop]
    unfold attachmentEvents
    cases a.openOk <;> cases a.addOk <;> simp [ih]

theorem rp_not_mem_reportGenHead (u : UUID) (env : Env) :
    Event.reportPending u ∉ reportGenHead env := by
  cases hsa : env.settingsAvailable <;>
    simp [reportGenHead, settingsEvents, hsa, rp_not_mem_guardConstruct]

theorem rp_not_mem_writeHead (u : UUID) (env : Env) :
    Event.reportPending u ∉ writeHead env := by
  simp [writeHead, rp_not_mem_reportGenHead]

theorem rp_not_mem_finishHead (u : UUID) (env : Env) (as : List Attachment) :
    Event.reportPending u ∉ finishHead env as := by
  simp [finishHead, rp_not_mem_writeHead, rp_not_mem_attachmentLoop]

/-- C5: if `PrepareNewCrashReport` returns a non-no-error status, or
`WriteEverything` fails, or `FinishedWritingCrashReport` returns a
non-no-error status, then `ReportPending` is never invoked; `ReportPending`
is invoked only with the UUID produced by a successful
`FinishedWritingCrashReport`, only when an upload thread is configured,
and only at a point strictly after the `FinishedWritingCrashReport`
call. -/
theorem C5_upload_gating (env : Env) (c : Nat) (tr : List Event)
    (h : ExceptionHandlerServerException env = some (c, tr)) :
    ((env.prepareStatus ≠ OperationStatus.kNoError ∨ env.writeOk = false ∨
        env.finishStatus ≠ OperationStatus.kNoError) →
      ∀ u, Event.reportPending u ∉ tr) ∧
    (∀ u, Event.reportPending u ∈ tr →
      u = env.finishUUID ∧ env.uploadThreadPresent = true ∧
        env.finishStatus = OperationStatus.kNoError ∧
        ∃ l₁ l₂, tr = l₁ ++ [Event.finishedWritingCrashReport,
          Event.reportPending u] ++ l₂) := by
  rcases run_inversion env c tr h with ⟨hs, hc, rfl⟩ | ⟨hs, hc, hrest⟩
  · have hno : ∀ u, Event.reportPending u ∉ failTraceSnapshot env := by
      intro u
      simp [failTraceSnapshot, rp_not_mem_guardConstruct,
        rp_not_mem_guardDestruct]
    exact ⟨fun _ u => hno u, fun u hu => absurd hu (hno u)⟩
  · rcases hrest with ⟨hd, rfl⟩ | ⟨hd, hann, hrest⟩
    · have hno : ∀ u, Event.reportPending u ∉ disabledTrace env := by
        intro u
        simp [disabledTrace, rp_not_mem_guardConstruct,
          rp_not_mem_guardDestruct]
      exact ⟨fun _ u => hno u, fun u hu => absurd hu (hno u)⟩
    · rcases hrest with ⟨hp, rfl⟩ | ⟨hp, hrest2⟩
      · have hno : ∀ u, Event.reportPending u ∉ prepareFailTrace env := by
          intro u
          simp [prepareFailTrace, rp_not_mem_reportGenHead,
            rp_not_mem_guardDestruct]
        exact ⟨fun _ u => hno u, fun u hu => absurd hu (hno u)⟩
      · rcases hrest2 with ⟨hw, rfl⟩ | ⟨hw, as, hatt, hfin⟩
        · have hno : ∀ u, Event.reportPending u ∉ writeFailTrace env := by
            intro u
            simp [writeFailTrace, rp_not_mem_writeHead,
              rp_not_mem_guardDestruct]
          exact ⟨fun _ u => hno u, fun u hu => absurd hu (hno u)⟩
        · rcases hfin with ⟨hf, rfl⟩ | ⟨hf, rfl⟩
          · have hno : ∀ u, Event.reportPending u ∉ finishFailTrace env as := by
              intro u
              simp [finishFailTrace, rp_not_mem_finishHead,
                rp_not_mem_guardDestruct]
            exact ⟨fun _ u => hno u, fun u hu => absurd hu (hno u)⟩
          · constructor
            · rintro (hbad | hbad | hbad)
              · exact absurd hp hbad
              · rw [hw] at hbad; cases hbad
              · exact absurd hf hbad
            · intro u hu
              cases hup : env.uploadThreadPresent with
              | false =>
                rw [successTrace, hup] at hu
                simp [rp_not_mem_finishHead, rp_not_mem_guardDestruct] at hu
              | true =>
                rw [successTrace, hup] at hu
                simp [rp_not_mem_finishHead, rp_not_mem_guardDestruct] at hu
                subst hu
                refine ⟨rfl, rfl, hf, writeHead env ++ attachmentLoop as,
                  [Event.captureResult CaptureResult.kSuccess] ++
                    guardDestructEvents env.suspendOk, ?_⟩
                simp [successTrace, finishHead, hup, List.append_assoc]

/-- C5 witness: the theorem applied to the concrete environment `envW5`,
whose `PrepareNewCrashReport` fails. -/
theorem C5_witness : Event.reportPending 3 ∉ trW5 :=
  (C5_upload_gating envW5 5 trW5 (by decide)).1 (Or.inl (by decide)) 3

theorem filter_copy_attachmentLoop (as : List Attachment) :
    (attachmentLoop as).filter isCopyFileContentEvent =
      (as.filter (fun a => a.openOk && a.addOk)).map
        (fun a => Event.copyFileContent a.name) := by
  induction as with
  | nil => simp [attachmentLoop]
  | cons a rest ih =>
    rw [attachmentLoop, List.filter_append, ih]
    unfold attachmentEvents
    cases ho : a.openOk <;> cases ha : a.addOk <;>
      simp [List.filter_cons, ho, ha, isCopyFileContentEvent]

theorem filter_open_attachmentLoop (as : List Attachment) :
    (attachmentLoop as).filter isOpenAttachmentEvent =
      as.map (fun a => Event.openAttachment a.name) := by
  induction as with
  | nil => simp [attachmentLoop]
  | cons a rest ih =>
    rw [attachmentLoop, List.filter_append, ih]
    unfold attachmentEvents
    cases ho : a.openOk <;> cases ha : a.addOk <;>
      simp [List.filter_cons, ho, ha, isOpenAttachmentEvent]

theorem filter_copy_writeHead (env : Env) :
    (writeHead env).filter isCopyFileContentEvent = [] := by
  cases hb : env.suspendOk <;> cases hsa : env.settingsAvailable <;>
    simp [writeHead, reportGenHead, settingsEvents, guardConstructEvents,
      hb, hsa, isCopyFileContentEvent]

theorem filter_open_writeHead (env : Env) :
    (writeHead env).filter isOpenAttachmentEvent = [] := by
  cases hb : env.suspendOk <;> cases hsa : env.settingsAvailable <;>
    simp [writeHead, reportGenHead, settingsEvents, guardConstructEvents,
      hb, hsa, isOpenAttachmentEvent]

theorem filter_copy_guardDestruct (b : Bool) :
    (guardDestructEvents b).filter isCopyFileContentEvent = [] := by
  cases b <;> simp [guardDestructEvents, isCopyFileContentEvent]

theorem filter_open_guardDestruct (b : Bool) :
    (guardDestructEvents b).filter isOpenAttachmentEvent = [] := by
  cases b <;> simp [guardDestructEvents, isOpenAttachmentEvent]

/-- C6: when the attachment-copy loop is reached, attachments that fail to
open or get no output slot are skipped individually: every attachment is
still attempted (one `Open` per supplied attachment, in order),
exactly the attachments that opened and got a slot are copied, and
`FinishedWritingCrashReport` is still attempted afterwards. -/
theorem C6_attachment_soft_failure (env : Env) (c : Nat) (tr : List Event)
    (as : List Attachment)
    (h : ExceptionHandlerServerException env = some (c, tr))
    (hs : env.snapshotOk = true)
    (hd : env.handlerBehavior ≠ TriState.kDisabled)
    (hp : env.prepareStatus = OperationStatus.kNoError)
    (hw : env.writeOk = true)
    (hatt : env.attachments_ = some as) :
    Event.finishedWritingCrashReport ∈ tr ∧
      tr.filter isOpenAttachmentEvent =
        as.map (fun a => Event.openAttachment a.name) ∧
      tr.filter isCopyFileContentEvent =
        (as.filter (fun a => a.openOk && a.addOk)).map
          (fun a => Event.copyFileContent a.name) := by
  rcases run_inversion env c tr h with ⟨hs2, _, _⟩ | ⟨_, _, hrest⟩
  · rw [hs] at hs2; cases hs2
  · rcases hrest with ⟨hd2, _⟩ | ⟨_, _, hrest⟩
    · exact absurd hd2 hd
    · rcases hrest with ⟨hp2, _⟩ | ⟨_, hrest2⟩
      · exact absurd hp hp2
      · rcases hrest2 with ⟨hw2, _⟩ | ⟨_, as2, hatt2, hfin⟩
        · rw [hw] at hw2; cases hw2
        · rw [hatt] at hatt2
          injection hatt2 with hAs
          subst hAs
          rcases hfin with ⟨_, rfl⟩ | ⟨_, rfl⟩
          · refine ⟨?_, ?_, ?_⟩
            · simp [finishFailTrace, finishHead]
            · simp [finishFailTrace, finishHead, List.filter_append,
                filter_open_writeHead, filter_open_attachmentLoop,
                filter_open_guardDestruct, isOpenAttachmentEvent]
            · simp [finishFailTrace, finishHead, List.filter_append,
                filter_copy_writeHead, filter_copy_attachmentLoop,
                filter_copy_guardDestruct, isCopyFileContentEvent]
          · refine ⟨?_, ?_, ?_⟩
            · simp [successTrace, finishHead]
            · cases hup : env.uploadThreadPresent <;>
                simp [successTrace, finishHead, hup, List.filter_append,
                  filter_open_writeHead, filter_open_attachmentLoop,
                  filter_open_guardDestruct, isOpenAttachmentEvent]
            · cases hup : env.uploadThreadPresent <;>
                simp [successTrace, finishHead, hup, List.filter_append,
                  filter_copy_writeHead, filter_copy_attachmentLoop,
                  filter_copy_guardDestruct, isCopyFileContentEvent]

/-- C6 witness: the theorem applied to `envW6`, whose first attachment
fails to open and whose second gets no slot. -/
theorem C6_witness :
    Event.finishedWritingCrashReport ∈ trW6 ∧
      trW6.filter isOpenAttachmentEvent =
        ([⟨"missing.txt", false, true⟩, ⟨"noslot.txt", true, false⟩,
          ⟨"good.txt", true, true⟩] : List Attachment).map
          (fun a => Event.openAttachment a.name) ∧
      trW6.filter isCopyFileContentEvent =
        (([⟨"missing.txt", false, true⟩, ⟨"noslot.txt", true, false⟩,
          ⟨"good.txt", true, true⟩] : List Attachment).filter
            (fun a => a.openOk && a.addOk)).map
          (fun a => Event.copyFileContent a.name) :=
  C6_attachment_soft_failure envW6 5 trW6
    [⟨"missing.txt", false, true⟩, ⟨"noslot.txt", true, false⟩,
      ⟨"good.txt", true, true⟩]
    (by decide) (by decide) (by decide) (by decide) (by decide) (by decide)

/-- C7: if suspending the target process fails, the failure surfaces as a
distinct reported outcome strictly before any snapshot acquisition is
attempted; it is never a silent no-op followed by a snapshot attempt. -/
theorem C7_suspension_failure_reported (env : Env) (c : Nat) (tr : List Event)
    (h : ExceptionHandlerServerException env = some (c, tr))
    (hsus : env.suspendOk = false) :
    ∃ rest, tr = Event.exceptionEncountered ::
      Event.suspendFailureReported :: Event.snapshotInitialize :: rest := by
  rcases run_inversion env c tr h with ⟨_, _, rfl⟩ | ⟨_, _, hrest⟩
  · exact ⟨_, by simp [failTraceSnapshot, guardConstructEvents, hsus]; rfl⟩
  · rcases hrest with ⟨_, rfl⟩ | ⟨_, _, hrest⟩
    · exact ⟨_, by simp [disabledTrace, guardConstructEvents, hsus]; rfl⟩
    · rcases hrest with ⟨_, rfl⟩ | ⟨_, hrest2⟩
      · exact ⟨_, by simp [prepareFailTrace, reportGenHead, guardConstructEvents, hsus, List.append_assoc]; rfl⟩
      · rcases hrest2 with ⟨_, rfl⟩ | ⟨_, as, hatt, hfin⟩
        · exact ⟨_, by simp [writeFailTrace, writeHead, reportGenHead, guardConstructEvents, hsus, List.append_assoc]; rfl⟩
        · rcases hfin with ⟨_, rfl⟩ | ⟨_, rfl⟩
          · exact ⟨_, by simp [finishFailTrace, finishHead, writeHead, reportGenHead, guardConstructEvents, hsus, List.append_assoc]; rfl⟩
          · exact ⟨_, by simp [successTrace, finishHead, writeHead, reportGenHead, guardConstructEvents, hsus, List.append_assoc]; rfl⟩

/-- C7 witness: the theorem applied to the concrete environment `envW7`,
on which suspension fails. -/
theorem C7_witness :
    ∃ rest, trW7 = Event.exceptionEncountered ::
      Event.suspendFailureReported :: Event.snapshotInitialize :: rest :=
  C7_suspension_failure_reported envW7 5 trW7 (by decide) (by decide)

/-- C8: when report generation proceeds and either `GetSettings` returns
null or `GetClientID` fails, the snapshot's client id is set to the
all-zero UUID, and the pipeline continues directly to
`PrepareNewCrashReport` with nothing (in particular no failure metric)
recorded in between. -/
theorem C8_zero_client_id (env : Env) (c : Nat) (tr : List Event)
    (h : ExceptionHandlerServerException env = some (c, tr))
    (hs : env.snapshotOk = true)
    (hd : env.handlerBehavior ≠ TriState.kDisabled)
    (hid : env.settingsAvailable = false ∨ env.getClientIDOk = false) :
    ∃ l₁ l₂, tr = l₁ ++ [Event.setClientID 0, Event.setAnnotationsSimpleMap,
      Event.prepareNewCrashReport] ++ l₂ := by
  have hcid : clientId env = 0 := by
    rcases hid with h1 | h1 <;> simp [clientId, h1]
  rcases run_inversion env c tr h with ⟨hs2, _, _⟩ | ⟨_, _, hrest⟩
  · rw [hs] at hs2; cases hs2
  · rcases hrest with ⟨hd2, _⟩ | ⟨_, _, hrest⟩
    · exact absurd hd2 hd
    · rcases hrest with ⟨_, rfl⟩ | ⟨_, hrest2⟩
      · refine ⟨dialogPrefix env ++ Event.showReportDialog ::
            settingsEvents env,
          [Event.captureResult CaptureResult.kPrepareNewCrashReportFailed] ++
            guardDestructEvents env.suspendOk, ?_⟩
        simp [prepareFailTrace, reportGenHead, dialogPrefix, hcid,
          List.append_assoc]
      · rcases hrest2 with ⟨_, rfl⟩ | ⟨_, as, hatt, hfin⟩
        · refine ⟨dialogPrefix env ++ Event.showReportDialog ::
              settingsEvents env,
            [Event.setReportID env.newReportID, Event.initializeFromSnapshot,
              Event.addUserExtensionStreams, Event.writeEverything,
              Event.captureResult CaptureResult.kMinidumpWriteFailed] ++
              guardDestructEvents env.suspendOk, ?_⟩
          simp [writeFailTrace, writeHead, reportGenHead, dialogPrefix, hcid,
            List.append_assoc]
        · rcases hfin with ⟨_, rfl⟩ | ⟨_, rfl⟩
          · refine ⟨dialogPrefix env ++ Event.showReportDialog ::
                settingsEvents env,
              [Event.setReportID env.newReportID, Event.initializeFromSnapshot,
                Event.addUserExtensionStreams, Event.writeEverything] ++
                attachmentLoop as ++
                [Event.finishedWritingCrashReport, Event.captureResult
                  CaptureResult.kFinishedWritingCrashReportFailed] ++
                guardDestructEvents env.suspendOk, ?_⟩
            simp [finishFailTrace, finishHead, writeHead, reportGenHead,
              dialogPrefix, hcid, List.append_assoc]
          · refine ⟨dialogPrefix env ++ Event.showReportDialog ::
                settingsEvents env,
              [Event.setReportID env.newReportID, Event.initializeFromSnapshot,
                Event.addUserExtensionStreams, Event.writeEverything] ++
                attachmentLoop as ++ [Event.finishedWritingCrashReport] ++
                (if env.uploadThreadPresent then
                  [Event.reportPending env.finishUUID] else []) ++
                [Event.captureResult CaptureResult.kSuccess] ++
                guardDestructEvents env.suspendOk, ?_⟩
            simp [successTrace, finishHead, writeHead, reportGenHead,
              dialogPrefix, hcid, List.append_assoc]

/-- C8 witness: the theorem applied to the concrete environment `envW8`,
whose `GetSettings` returns null. -/
theorem C8_witness :
    ∃ l₁ l₂, trW8 = l₁ ++ [Event.setClientID 0, Event.setAnnotationsSimpleMap,
      Event.prepareNewCrashReport] ++ l₂ :=
  C8_zero_client_id envW8 5 trW8 (by decide) (by decide) (by decide)
    (Or.inl (by decide))

/-- C9 counterexample: the claim as stated is false.  On `envC9` report
generation is reached (the snapshot succeeds, behavior is not disabled,
and `PrepareNewCrashReport` is called) while `attachments_` is null, yet
the call returns normally — the null `attachments_` pointer is never
dereferenced because `PrepareNewCrashReport` failed first. -/
theorem C9_counterexample :
    envC9.attachments_ = none ∧ envC9.snapshotOk = true ∧
      envC9.handlerBehavior ≠ TriState.kDisabled ∧
      ExceptionHandlerServerException envC9 = some (5, trC9) ∧
      Event.prepareNewCrashReport ∈ trC9 := by decide

/-- C9 amended: report generation unconditionally dereferences
`process_annotations_` (a null pointer faults there); `attachments_` is
dereferenced once the pipeline also passes `PrepareNewCrashReport` and
`WriteEverything` (a null pointer faults there); when both pointers are
non-null the call never faults. -/
theorem C9_null_deref (env : Env) :
    (env.snapshotOk = true → env.handlerBehavior ≠ TriState.kDisabled →
      env.process_annotations_ = none →
      ExceptionHandlerServerException env = none) ∧
    (env.snapshotOk = true → env.handlerBehavior ≠ TriState.kDisabled →
      env.prepareStatus = OperationStatus.kNoError → env.writeOk = true →
      env.attachments_ = none →
      ExceptionHandlerServerException env = none) ∧
    (env.process_annotations_ ≠ none → env.attachments_ ≠ none →
      ExceptionHandlerServerException env ≠ none) := by
  refine ⟨?_, ?_, ?_⟩
  · intro hs hd hann
    simp [ExceptionHandlerServerException, hs, hd, hann]
  · intro hs hd hp hw hatt
    cases hann : env.process_annotations_ with
    | none => simp [ExceptionHandlerServerException, hs, hd, hann]
    | some m => simp [ExceptionHandlerServerException, hs, hd, hann, hp, hw, hatt]
  · intro hann hatt
    cases hann2 : env.process_annotations_ with
    | none => exact absurd hann2 hann
    | some m =>
      cases hatt2 : env.attachments_ with
      | none => exact absurd hatt2 hatt
      | some as =>
        cases hsn : env.snapshotOk with
        | false => simp [ExceptionHandlerServerException, hsn]
        | true =>
          by_cases hd : env.handlerBehavior = TriState.kDisabled
          · simp [ExceptionHandlerServerException, hsn, hd]
          · by_cases hp : env.prepareStatus = OperationStatus.kNoError
            · cases hw : env.writeOk with
              | false =>
                simp [ExceptionHandlerServerException, hsn, hd, hann2, hp, hw]
              | true =>
                by_cases hf : env.finishStatus = OperationStatus.kNoError
                · simp [ExceptionHandlerServerException, hsn, hd, hann2, hp,
                    hw, hatt2, hf]
                · simp [ExceptionHandlerServerException, hsn, hd, hann2, hp,
                    hw, hatt2, hf]
            · simp [ExceptionHandlerServerException, hsn, hd, hann2, hp]

/-- C9 witness: the amended theorem applied to the concrete environments
`envW9a` (null annotations, faults), `envW9b` (null attachments reaching
the loop, faults), and `envBase` (both non-null, no fault). -/
theorem C9_witness :
    ExceptionHandlerServerException envW9a = none ∧
      ExceptionHandlerServerException envW9b = none ∧
      ExceptionHandlerServerException envBase ≠ none :=
  ⟨(C9_null_deref envW9a).1 (by decide) (by decide) (by decide),
    (C9_null_deref envW9b).2.1 (by decide) (by decide) (by decide) (by decide)
      (by decide),
    (C9_null_deref envBase).2.2 (by decide) (by decide)⟩

theorem dialogPrefix_no_db (env : Env) :
    (dialogPrefix env).all (fun e => !(isDatabaseInteraction e)) = true := by
  cases hb : env.suspendOk <;>
    simp [dialogPrefix, guardConstructEvents, hb, isDatabaseInteraction]

theorem dialogPrefix_no_resume (env : Env) :
    Event.resumeProcess ∉ dialogPrefix env := by
  cases hb : env.suspendOk <;> simp [dialogPrefix, guardConstructEvents, hb]

theorem dialogPrefix_no_setClientID (env : Env) (u : UUID) :
    Event.setClientID u ∉ dialogPrefix env := by
  cases hb : env.suspendOk <;> simp [dialogPrefix, guardConstructEvents, hb]

theorem dialogPrefix_has_options (env : Env) :
    Event.getCrashpadOptions ∈ dialogPrefix env := by
  simp [dialogPrefix]

theorem dialogTail_has_getSettings (env : Env) (l : List Event) :
    Event.getSettings ∈ dialogTail env l := by
  cases hsa : env.settingsAvailable <;>
    simp [dialogTail, settingsEvents, hsa]

theorem reportGenHead_dialog_split (env : Env) (l : List Event) :
    reportGenHead env ++ l =
      dialogPrefix env ++ Event.showReportDialog :: dialogTail env l := by
  simp [reportGenHead, dialogPrefix, dialogTail, List.append_assoc]

/-- C10: when the snapshot succeeds and handler behavior is not disabled,
the report dialog runs after the policy check and strictly before
client-identity resolution and any crash-database call, before the target
process is resumed; no dialog is shown on the disabled branch or when
snapshot initialization fails. -/
theorem C10_dialog_ordering (env : Env) (c : Nat) (tr : List Event)
    (h : ExceptionHandlerServerException env = some (c, tr)) :
    (env.snapshotOk = true → env.handlerBehavior ≠ TriState.kDisabled →
      ∃ l₂, tr = dialogPrefix env ++ Event.showReportDialog :: l₂ ∧
        (dialogPrefix env).all (fun e => !(isDatabaseInteraction e)) = true ∧
        Event.resumeProcess ∉ dialogPrefix env ∧
        (∀ u, Event.setClientID u ∉ dialogPrefix env) ∧
        Event.getCrashpadOptions ∈ dialogPrefix env ∧
        Event.getSettings ∈ l₂) ∧
    ((env.snapshotOk = false ∨ env.handlerBehavior = TriState.kDisabled) →
      Event.showReportDialog ∉ tr) := by
  rcases run_inversion env c tr h with ⟨hs, _, rfl⟩ | ⟨hs, _, hrest⟩
  · constructor
    · intro hs2 _
      rw [hs2] at hs; cases hs
    · intro _
      cases hb : env.suspendOk <;>
        simp [failTraceSnapshot, guardConstructEvents, guardDestructEvents, hb]
  · rcases hrest with ⟨hdis, rfl⟩ | ⟨hd, _, hrest⟩
    · constructor
      · intro _ hd2
        exact absurd hdis hd2
      · intro _
        cases hb : env.suspendOk <;>
          simp [disabledTrace, guardConstructEvents, guardDestructEvents, hb]
    · have hneg : (env.snapshotOk = false ∨
          env.handlerBehavior = TriState.kDisabled) → False := by
        rintro (hbad | hbad)
        · rw [hs] at hbad; cases hbad
        · exact absurd hbad hd
      rcases hrest with ⟨_, rfl⟩ | ⟨_, hrest2⟩
      · refine ⟨fun _ _ => ⟨dialogTail env
            ([Event.captureResult CaptureResult.kPrepareNewCrashReportFailed] ++
              guardDestructEvents env.suspendOk), ?_, dialogPrefix_no_db env,
            dialogPrefix_no_resume env, fun u => dialogPrefix_no_setClientID env u,
            dialogPrefix_has_options env, dialogTail_has_getSettings env _⟩,
          fun hbad => absurd hbad hneg⟩
        rw [← reportGenHead_dialog_split]
        simp [prepareFailTrace, List.append_assoc]
      · rcases hrest2 with ⟨_, rfl⟩ | ⟨_, as, hatt, hfin⟩
        · refine ⟨fun _ _ => ⟨dialogTail env
              ([Event.setReportID env.newReportID, Event.initializeFromSnapshot,
                Event.addUserExtensionStreams, Event.writeEverything,
                Event.captureResult CaptureResult.kMinidumpWriteFailed] ++
                guardDestructEvents env.suspendOk), ?_, dialogPrefix_no_db env,
              dialogPrefix_no_resume env, fun u => dialogPrefix_no_setClientID env u,
              dialogPrefix_has_options env, dialogTail_has_getSettings env _⟩,
            fun hbad => absurd hbad hneg⟩
          rw [← reportGenHead_dialog_split]
          simp [writeFailTrace, writeHead, List.append_assoc]
        · rcases hfin with ⟨_, rfl⟩ | ⟨_, rfl⟩
          · refine ⟨fun _ _ => ⟨dialogTail env
                ([Event.setReportID env.newReportID, Event.initializeFromSnapshot,
                  Event.addUserExtensionStreams, Event.writeEverything] ++
                  attachmentLoop as ++
                  [Event.finishedWritingCrashReport, Event.captureResult
                    CaptureResult.kFinishedWritingCrashReportFailed] ++
                  guardDestructEvents env.suspendOk), ?_, dialogPrefix_no_db env,
                dialogPrefix_no_resume env, fun u => dialogPrefix_no_setClientID env u,
                dialogPrefix_has_options env, dialogTail_has_getSettings env _⟩,
              fun hbad => absurd hbad hneg⟩
            rw [← reportGenHead_dialog_split]
            simp [finishFailTrace, finishHead, writeHead, List.append_assoc]
          · refine ⟨fun _ _ => ⟨dialogTail env
                ([Event.setReportID env.newReportID, Event.initializeFromSnapshot,
                  Event.addUserExtensionStreams, Event.writeEverything] ++
                  attachmentLoop as ++ [Event.finishedWritingCrashReport] ++
                  (if env.uploadThreadPresent then
                    [Event.reportPending env.finishUUID] else []) ++
                  [Event.captureResult CaptureResult.kSuccess] ++
                  guardDestructEvents env.suspendOk), ?_, dialogPrefix_no_db env,
                dialogPrefix_no_resume env, fun u => dialogPrefix_no_setClientID env u,
                dialogPrefix_has_options env, dialogTail_has_getSettings env _⟩,
              fun hbad => absurd hbad hneg⟩
            rw [← reportGenHead_dialog_split]
            simp [successTrace, finishHead, writeHead, List.append_assoc]

/-- C10 witness: the theorem applied to the concrete environment
`envW10`. -/
theorem C10_witness :
    ∃ l₂, trW10 = dialogPrefix envW10 ++ Event.showReportDialog :: l₂ ∧
      (dialogPrefix envW10).all (fun e => !(isDatabaseInteraction e)) = true ∧
      Event.resumeProcess ∉ dialogPrefix envW10 ∧
      (∀ u, Event.setClientID u ∉ dialogPrefix envW10) ∧
      Event.getCrashpadOptions ∈ dialogPrefix envW10 ∧
      Event.getSettings ∈ l₂ :=
  (C10_dialog_ordering envW10 5 trW10 (by decide)).1 (by decide) (by decide)

end Crashpad
